import Mathlib

/-!
# Shallow embedding of the ideAlarm multi-zone alarm package

This file embeds the Jython module
`Lib/community/idealarm/__init__.py` (classes `IdeAlarmSensor`,
`IdeAlarmZone`, `IdeAlarm`) together with the item-store helpers it uses
from `Lib/core/utils.py` (`getItemValue`, `post_update_if_different`,
`send_command_if_different`).

Modelling decisions:

* openHAB item states are the inductive `ItemVal`; the item registry and
  the custom-configuration flags live in a `World` record.  Both
  `post_update_if_different` and `send_command_if_different` leave the
  target item holding the requested value, so both are modelled as a
  point update of the item map.
* A raised `IdeAlarmError` is `Except.error` carrying the message; the
  Python code raises before mutating anything in those paths, so an
  `Except.error` result carries no state change.
* Calls into the user-supplied `custom` module are recorded in a `Hook`
  trace, guarded by `has…` flags in `World` that model
  `'name' in dir(custom)`.  Successive assignments to `self._zoneStatus`
  are recorded in the `statusSeq` trace.
* `time.sleep(1)` has no observable effect in this model.
-/

/-- openHAB item state values, as used by the alarm module:
`scope.ON / OFF / OPEN / CLOSED / NULL / UNDEF` and numeric states. -/
inductive ItemVal where
  | ON : ItemVal
  | OFF : ItemVal
  | OPEN : ItemVal
  | CLOSED : ItemVal
  | NULL : ItemVal
  | UNDEF : ItemVal
  | num : Nat → ItemVal
deriving DecidableEq, Repr

/-- The environment: the item registry (state and group membership per
item name), the configured name of the lock-device group
(`customGroupNames['lockDevice']`), and which optional functions the
user's `custom` module defines (`'f' in dir(custom)`). -/
structure World where
  items : String → ItemVal
  groups : String → List String
  lockDeviceGroupName : String
  hasOnArmingWithOpenSensors : Bool
  hasOnArmingModeChange : Bool
  hasOnZoneStatusChange : Bool
  hasOnNagTimer : Bool

/-- Source `ZONESTATUS = NORMAL 0, ALERT 1, ERROR 2, TRIPPED 3, ARMING 4`. -/
def ZONESTATUS_NORMAL : Nat := 0

def ZONESTATUS_ALERT : Nat := 1

def ZONESTATUS_ERROR : Nat := 2

def ZONESTATUS_TRIPPED : Nat := 3

def ZONESTATUS_ARMING : Nat := 4

/-- Source `ARMINGMODE = DISARMED 0, ARMED_HOME 1, ARMED_AWAY 2`. -/
def ARMINGMODE_DISARMED : Nat := 0

def ARMINGMODE_ARMED_HOME : Nat := 1

def ARMINGMODE_ARMED_AWAY : Nat := 2

/-- Source `core.utils.post_update_if_different`: afterwards the item holds the
requested value (posting is skipped only when it already does). -/
def post_update_if_different (w : World) (itemName : String) (v : ItemVal) : World :=
  { w with items := fun n => if n = itemName then v else w.items n }

/-- Source `core.utils.send_command_if_different`: same end state on the item. -/
def send_command_if_different (w : World) (itemName : String) (v : ItemVal) : World :=
  { w with items := fun n => if n = itemName then v else w.items n }

/-- Source `core.utils.getItemValue` (ON/OFF-typed default): the item's state
unless it is NULL or UNDEF, in which case the default. -/
def getItemValue (w : World) (itemName : String) (defaultValue : ItemVal) : ItemVal :=
  if w.items itemName = ItemVal.NULL ∨ w.items itemName = ItemVal.UNDEF then defaultValue
  else w.items itemName

/-- Module-level `isActive(item)`: active when the state is ON or OPEN,
inverted for members of the lock-device group.  (Named `isActiveItem`
here because `IdeAlarmSensor.isActive` below shadows plain `isActive`
inside its own definition.) -/
def isActiveItem (w : World) (itemName : String) : Bool :=
  let active := w.items itemName = ItemVal.ON ∨ w.items itemName = ItemVal.OPEN
  if w.lockDeviceGroupName ∈ w.groups itemName then ¬active else active

/-- Source `IdeAlarmSensor`: the per-sensor configuration.  `enabled` models
the value of `cfg['enabled']` (when that entry is a callable, the Bool
it currently returns). -/
structure IdeAlarmSensor where
  name : String
  sensorClass : String
  nag : Bool
  nagTimeoutMins : Nat
  armWarn : Bool
  enabled : Bool
deriving DecidableEq, Repr

/-- Source `IdeAlarmSensor.isEnabled`. -/
def IdeAlarmSensor.isEnabled (sn : IdeAlarmSensor) : Bool :=
  sn.enabled

/-- Source `IdeAlarmSensor.isActive`: looks the sensor's item up in the registry. -/
def IdeAlarmSensor.isActive (sn : IdeAlarmSensor) (w : World) : Bool :=
  isActiveItem w sn.name

/-- Source `IdeAlarmZone`: configuration plus the mutable attributes
`_armingMode`, `_zoneStatus` (both `None` before initialisation) and
`openSections`. -/
structure IdeAlarmZone where
  zoneNumber : Nat
  alertDevices : List String
  name : String
  armAwayToggleSwitch : String
  armHomeToggleSwitch : String
  mainZone : Bool
  canArmWithTrippedSensors : Bool
  alarmTestMode : Bool
  sensors : List IdeAlarmSensor
  armingModeItem : String
  statusItem : String
  armingMode : Option Nat
  zoneStatus : Option Nat
  openSections : Nat

/-- Source `"Z{}_Entry_Timer".format(self.zoneNumber)`. -/
def entryTimerItem (z : IdeAlarmZone) : String :=
  "Z" ++ toString z.zoneNumber ++ "_Entry_Timer"

/-- Source `"Z{}_Exit_Timer".format(self.zoneNumber)`. -/
def exitTimerItem (z : IdeAlarmZone) : String :=
  "Z" ++ toString z.zoneNumber ++ "_Exit_Timer"

/-- Source `"Z{}_Nag_Timer".format(self.zoneNumber)`. -/
def nagTimerItem (z : IdeAlarmZone) : String :=
  "Z" ++ toString z.zoneNumber ++ "_Nag_Timer"

/-- Source `"Z{}_Alert_Max_Timer".format(self.zoneNumber)`. -/
def alertMaxTimerItem (z : IdeAlarmZone) : String :=
  "Z" ++ toString z.zoneNumber ++ "_Alert_Max_Timer"

/-- Source `"Z{}_Open_Sections".format(self.zoneNumber)`. -/
def openSectionsItem (z : IdeAlarmZone) : String :=
  "Z" ++ toString z.zoneNumber ++ "_Open_Sections"

/-- Source `IdeAlarmZone.getArmingMode`. -/
def IdeAlarmZone.getArmingMode (z : IdeAlarmZone) : Option Nat :=
  z.armingMode

/-- Source `IdeAlarmZone.getZoneStatus`. -/
def IdeAlarmZone.getZoneStatus (z : IdeAlarmZone) : Option Nat :=
  z.zoneStatus

/-- Calls into the user's `custom` module, recorded as a trace. -/
inductive Hook where
  | onArmingWithOpenSensors : Nat → Hook
  | onArmingModeChange : Nat → Option Nat → Hook
  | onZoneStatusChange : Nat → Option Nat → Option String → Hook
  | onNagTimer : List String → Hook
deriving DecidableEq, Repr

/-- Result of one zone-level operation: the new zone record, the new
world, the custom hooks invoked, and the successive values assigned to
`self._zoneStatus` during the call. -/
structure ZoneStep where
  z : IdeAlarmZone
  w : World
  hooks : List Hook
  statusSeq : List Nat

/-- Source `IdeAlarmZone.setZoneStatus`.  On `NORMAL` it cancels the entry,
exit and alert-max timers and switches every alert device OFF, then it
syncs the status item and reports the change to the custom module. -/
def setZoneStatus (z : IdeAlarmZone) (w : World) (newZoneStatus : Nat)
    (sendCommand : Bool) (errorMessage : Option String) : Except String ZoneStep :=
  if newZoneStatus ∉ [ZONESTATUS_NORMAL, ZONESTATUS_ALERT, ZONESTATUS_ERROR,
      ZONESTATUS_TRIPPED, ZONESTATUS_ARMING] then
    Except.error "Trying to set an invalid zone status"
  else
    let oldZoneStatus := z.zoneStatus
    let z1 := { z with zoneStatus := some newZoneStatus }
    let w1 :=
      if newZoneStatus ∈ [ZONESTATUS_NORMAL] then
        let wa := post_update_if_different w (entryTimerItem z1) ItemVal.OFF
        let wb := post_update_if_different wa (exitTimerItem z1) ItemVal.OFF
        let wc := post_update_if_different wb (alertMaxTimerItem z1) ItemVal.OFF
        z1.alertDevices.foldl (fun wAcc d => send_command_if_different wAcc d ItemVal.OFF) wc
      else w
    let w2 := post_update_if_different w1 z1.statusItem (ItemVal.num newZoneStatus)
    let hooks := if w2.hasOnZoneStatusChange then
        [Hook.onZoneStatusChange newZoneStatus oldZoneStatus errorMessage] else []
    Except.ok ⟨z1, w2, hooks, [newZoneStatus]⟩

/-- Tail of `IdeAlarmZone.setArmingMode` (source lines 216-233): the
ARMED_AWAY wait-for-exit-timer branch, else install the new mode, sync
the arming-mode item, report the change, and reset the status to
NORMAL.  `hooks0` are hooks already emitted by the open-sensor guard. -/
def setArmingModeTail (z : IdeAlarmZone) (w : World) (newArmingMode : Nat)
    (oldArmingMode : Option Nat) (sendCommand : Bool) (hooks0 : List Hook) :
    Except String ZoneStep :=
  if newArmingMode = ARMINGMODE_ARMED_AWAY ∧ z.getZoneStatus ≠ none ∧
      z.getZoneStatus ≠ some ZONESTATUS_ARMING then
    match setZoneStatus z w ZONESTATUS_ARMING false none with
    | Except.error e => Except.error e
    | Except.ok r1 =>
      Except.ok ⟨r1.z, post_update_if_different r1.w (exitTimerItem r1.z) ItemVal.ON,
        hooks0 ++ r1.hooks, r1.statusSeq⟩
  else
    let z1 := { z with armingMode := some newArmingMode }
    let w1 := post_update_if_different w z1.armingModeItem (ItemVal.num newArmingMode)
    let hooks1 := hooks0 ++
      (if w1.hasOnArmingModeChange then [Hook.onArmingModeChange newArmingMode oldArmingMode] else [])
    match setZoneStatus z1 w1 ZONESTATUS_NORMAL false none with
    | Except.error e => Except.error e
    | Except.ok r => Except.ok ⟨r.z, r.w, hooks1 ++ r.hooks, r.statusSeq⟩

/-- Source `IdeAlarmZone.setArmingMode`: reject invalid modes; when arming with
open sensors, call the custom notifier and, if the zone may not arm with
tripped sensors, flash status ERROR then NORMAL and abort; otherwise
continue with `setArmingModeTail`. -/
def setArmingMode (z : IdeAlarmZone) (w : World) (newArmingMode : Nat)
    (sendCommand : Bool) : Except String ZoneStep :=
  let oldArmingMode := z.armingMode
  if newArmingMode ∉ [ARMINGMODE_DISARMED, ARMINGMODE_ARMED_HOME, ARMINGMODE_ARMED_AWAY] then
    Except.error ("Trying to set an invalid arming mode: " ++ toString newArmingMode)
  else
    if newArmingMode ∈ [ARMINGMODE_ARMED_AWAY, ARMINGMODE_ARMED_HOME] ∧
        z.getZoneStatus ≠ some ZONESTATUS_ARMING ∧ z.getZoneStatus ≠ none ∧
        z.openSections > 0 then
      let hooks0 := if w.hasOnArmingWithOpenSensors then
          [Hook.onArmingWithOpenSensors newArmingMode] else []
      if ¬z.canArmWithTrippedSensors then
        match setZoneStatus z w ZONESTATUS_ERROR false
            (some "Arming is not allowed with open sensors") with
        | Except.error e => Except.error e
        | Except.ok r1 =>
          match setZoneStatus r1.z r1.w ZONESTATUS_NORMAL false none with
          | Except.error e => Except.error e
          | Except.ok r2 =>
            Except.ok ⟨r2.z, r2.w, hooks0 ++ r1.hooks ++ r2.hooks,
              r1.statusSeq ++ r2.statusSeq⟩
      else
        setArmingModeTail z w newArmingMode oldArmingMode sendCommand hooks0
    else
      setArmingModeTail z w newArmingMode oldArmingMode sendCommand []

/-- Source `IdeAlarmZone.isArmed`. -/
def IdeAlarmZone.isArmed (z : IdeAlarmZone) : Bool :=
  z.getArmingMode ≠ some ARMINGMODE_DISARMED

/-- Source `IdeAlarmZone.isDisArmed`. -/
def IdeAlarmZone.isDisArmed (z : IdeAlarmZone) : Bool :=
  ¬z.isArmed

/-- Source `IdeAlarmZone.onToggleSwitch`. -/
def onToggleSwitch (z : IdeAlarmZone) (w : World) (itemName : String) :
    Except String ZoneStep :=
  let newArmingMode :=
    if itemName = z.armAwayToggleSwitch then
      if z.getArmingMode ∈ [some ARMINGMODE_DISARMED] then ARMINGMODE_ARMED_AWAY
      else ARMINGMODE_DISARMED
    else
      if z.getArmingMode ∈ [some ARMINGMODE_DISARMED] then ARMINGMODE_ARMED_HOME
      else ARMINGMODE_DISARMED
  setArmingMode z w newArmingMode false

/-- Source `IdeAlarmZone.onEntryTimer`: raises unless the status is TRIPPED,
else goes to ALERT, switches the alert devices ON (outside test mode)
and starts the alert-max timer. -/
def onEntryTimer (z : IdeAlarmZone) (w : World) : Except String ZoneStep :=
  if z.getZoneStatus ∉ [some ZONESTATUS_TRIPPED] then
    Except.error "Entry Timer timed out but zone status is not tripped"
  else
    match setZoneStatus z w ZONESTATUS_ALERT false none with
    | Except.error e => Except.error e
    | Except.ok r1 =>
      let w2 := if ¬z.alarmTestMode then
          r1.z.alertDevices.foldl (fun wAcc d => send_command_if_different wAcc d ItemVal.ON) r1.w
        else r1.w
      Except.ok ⟨r1.z, post_update_if_different w2 (alertMaxTimerItem r1.z) ItemVal.ON,
        r1.hooks, r1.statusSeq⟩

/-- Source `IdeAlarmZone.onExitTimer`. -/
def onExitTimer (z : IdeAlarmZone) (w : World) : Except String ZoneStep :=
  setArmingMode z w ARMINGMODE_ARMED_AWAY false

/-- Source `IdeAlarmZone.onAlertMaxTimer`: switch every alert device OFF. -/
def onAlertMaxTimer (z : IdeAlarmZone) (w : World) : ZoneStep :=
  ⟨z, z.alertDevices.foldl (fun wAcc d => send_command_if_different wAcc d ItemVal.OFF) w,
    [], []⟩

/-- Source `IdeAlarmZone.getNagSensors`: collect the enabled, active nag
sensors (only while DISARMED), drive the nag timer accordingly, and on a
timed-out nag timer call the custom `onNagTimer`. -/
def getNagSensors (z : IdeAlarmZone) (w : World) (timerTimedOut : Bool) :
    ZoneStep × List IdeAlarmSensor :=
  let nagSensors := z.sensors.filter fun sn =>
    sn.isEnabled && sn.isActive w && sn.nag &&
      decide (z.getArmingMode = some ARMINGMODE_DISARMED)
  if nagSensors.length = 0 then
    (⟨z, post_update_if_different w (nagTimerItem z) ItemVal.OFF, [], []⟩, nagSensors)
  else
    let w1 := post_update_if_different w (nagTimerItem z) ItemVal.ON
    let hooks := if timerTimedOut && w1.hasOnNagTimer then
        [Hook.onNagTimer (nagSensors.map IdeAlarmSensor.name)] else []
    (⟨z, w1, hooks, []⟩, nagSensors)

/-- Source `IdeAlarmZone.countOpenSections`: count the enabled, active sensors,
skipping members of group `G_Motion` unless armed away; store the count
in `openSections` and post it to the zone's open-sections item. -/
def countOpenSections (z : IdeAlarmZone) (w : World) : ZoneStep × Nat :=
  let n := z.sensors.countP fun sn =>
    sn.isEnabled && sn.isActive w &&
      (!decide ("G_Motion" ∈ w.groups sn.name) ||
        decide (z.getArmingMode ∈ [some ARMINGMODE_ARMED_AWAY]))
  let z1 := { z with openSections := n }
  (⟨z1, post_update_if_different w (openSectionsItem z1) (ItemVal.num n), [], []⟩, n)

/-- Source `IdeAlarmZone.onSensorChange`: ignore the trip unless armed with a
NORMAL status (and not a class-B sensor while armed home, and no running
exit timer); otherwise go to TRIPPED and start the entry timer. -/
def onSensorChange (z : IdeAlarmZone) (w : World) (sensor : IdeAlarmSensor) :
    Except String ZoneStep :=
  if z.getArmingMode ∉ [some ARMINGMODE_ARMED_HOME, some ARMINGMODE_ARMED_AWAY] ∨
      z.getZoneStatus ∉ [some ZONESTATUS_NORMAL] ∨
      (z.getArmingMode = some ARMINGMODE_ARMED_HOME ∧ sensor.sensorClass = "B") ∨
      getItemValue w (exitTimerItem z) ItemVal.OFF = ItemVal.ON then
    Except.ok ⟨z, w, [], []⟩
  else
    match setZoneStatus z w ZONESTATUS_TRIPPED false none with
    | Except.error e => Except.error e
    | Except.ok r1 =>
      Except.ok ⟨r1.z, post_update_if_different r1.w (entryTimerItem r1.z) ItemVal.ON,
        r1.hooks, r1.statusSeq⟩

/-- Python list indexing: nonnegative indices from the front,
negative indices from the back, `none` for an `IndexError`. -/
def pyGet {α : Type} (xs : List α) (i : Int) : Option α :=
  if 0 ≤ i then xs.get? i.toNat
  else if (-i).toNat ≤ xs.length then xs.get? (xs.length - (-i).toNat) else none

/-- Source `IdeAlarm.getZoneStatus(zone)` called with a nonnegative integer
argument, as `getAlertingZonesCount` does: `str(zone).isdigit()` is true
for every such integer, so `zoneIndex = int(zone) - 1` and the zone list
is indexed with Python semantics (index `-1` reaches the last zone).
`none` models the `IndexError` that an out-of-range index would raise. -/
def getZoneStatusNum (alarmZones : List IdeAlarmZone) (zone : Nat) : Option (Option Nat) :=
  (pyGet alarmZones ((zone : Int) - 1)).map IdeAlarmZone.getZoneStatus

/-- Source `IdeAlarm.getAlertingZonesCount`: loop `i` over
`range(len(self.alarmZones))` counting `self.getZoneStatus(i) == ALERT`. -/
def getAlertingZonesCount (alarmZones : List IdeAlarmZone) : Nat :=
  (List.range alarmZones.length).countP fun i =>
    decide (getZoneStatusNum alarmZones i = some (some ZONESTATUS_ALERT))

/-- The triggering event seen by `IdeAlarm.execute`. -/
structure Event where
  itemName : String
deriving DecidableEq, Repr

/-- Trace entries for `IdeAlarm.execute`: which zones the scan examined
and which zone handlers it invoked (`zoneIdx` is 0-based). -/
inductive HandlerCall where
  | visitZone : (zoneIdx : Nat) → HandlerCall
  | onToggleSwitch : (zoneIdx : Nat) → (itemName : String) → HandlerCall
  | onEntryTimer : (zoneIdx : Nat) → HandlerCall
  | onExitTimer : (zoneIdx : Nat) → HandlerCall
  | nagTimerTimedOut : (zoneIdx : Nat) → HandlerCall
  | onAlertMaxTimer : (zoneIdx : Nat) → HandlerCall
  | onSensorChange : (zoneIdx : Nat) → (sensorName : String) → HandlerCall
  | getNagSensors : (zoneIdx : Nat) → HandlerCall
  | countOpenSections : (zoneIdx : Nat) → HandlerCall
deriving DecidableEq, Repr

/-- Result of `IdeAlarm.execute`: the updated zone list and world, the
custom hooks invoked, and the scan/handler trace. -/
structure SysStep where
  zones : List IdeAlarmZone
  w : World
  hooks : List Hook
  calls : List HandlerCall

/-- The body of `IdeAlarm.execute`'s zone loop, processing the zones in
`rest` (whose first element has 0-based index `i`).  Toggle-switch and
timer matches handle the zone and `break` out of the loop; a sensor-name
match handles the sensor and `break`s only the inner sensor loop, so the
outer scan continues with the next zone. -/
def executeFrom (e : Event) (w : World) (rest : List IdeAlarmZone) (i : Nat) :
    Except String SysStep :=
  match rest with
  | [] => Except.ok ⟨[], w, [], []⟩
  | alarmZone :: tail =>
    if e.itemName = alarmZone.armAwayToggleSwitch ∨
        e.itemName = alarmZone.armHomeToggleSwitch then
      match onToggleSwitch alarmZone w e.itemName with
      | Except.error err => Except.error err
      | Except.ok r =>
        Except.ok ⟨r.z :: tail, r.w, r.hooks,
          [HandlerCall.visitZone i, HandlerCall.onToggleSwitch i e.itemName]⟩
    else if e.itemName = "Z" ++ toString (i + 1) ++ "_Entry_Timer" then
      match onEntryTimer alarmZone w with
      | Except.error err => Except.error err
      | Except.ok r =>
        Except.ok ⟨r.z :: tail, r.w, r.hooks,
          [HandlerCall.visitZone i, HandlerCall.onEntryTimer i]⟩
    else if e.itemName = "Z" ++ toString (i + 1) ++ "_Exit_Timer" then
      match onExitTimer alarmZone w with
      | Except.error err => Except.error err
      | Except.ok r =>
        Except.ok ⟨r.z :: tail, r.w, r.hooks,
          [HandlerCall.visitZone i, HandlerCall.onExitTimer i]⟩
    else if e.itemName = "Z" ++ toString (i + 1) ++ "_Nag_Timer" then
      let (r, _) := getNagSensors alarmZone w true
      Except.ok ⟨r.z :: tail, r.w, r.hooks,
        [HandlerCall.visitZone i, HandlerCall.nagTimerTimedOut i]⟩
    else if e.itemName = "Z" ++ toString (i + 1) ++ "_Alert_Max_Timer" then
      let r := onAlertMaxTimer alarmZone w
      Except.ok ⟨r.z :: tail, r.w, r.hooks,
        [HandlerCall.visitZone i, HandlerCall.onAlertMaxTimer i]⟩
    else
      -- Inner loop over the zone's sensors: handle the first sensor whose
      -- name matches, then break the inner loop only.
      match alarmZone.sensors.find? (fun sn => sn.name = e.itemName) with
      | none =>
        match executeFrom e w tail (i + 1) with
        | Except.error err => Except.error err
        | Except.ok rTail =>
          Except.ok ⟨alarmZone :: rTail.zones, rTail.w, rTail.hooks,
            HandlerCall.visitZone i :: rTail.calls⟩
      | some sensor =>
        if sensor.isEnabled then
          let step1 : Except String ZoneStep :=
            if isActiveItem w e.itemName then onSensorChange alarmZone w sensor
            else Except.ok ⟨alarmZone, w, [], []⟩
          match step1 with
          | Except.error err => Except.error err
          | Except.ok r1 =>
            let (r2, _) := getNagSensors r1.z r1.w false
            let (r3, _) := countOpenSections r2.z r2.w
            let callsHere := HandlerCall.visitZone i ::
              ((if isActiveItem w e.itemName then
                  [HandlerCall.onSensorChange i sensor.name] else []) ++
                [HandlerCall.getNagSensors i, HandlerCall.countOpenSections i])
            match executeFrom e r3.w tail (i + 1) with
            | Except.error err => Except.error err
            | Except.ok rTail =>
              Except.ok ⟨r3.z :: rTail.zones, rTail.w,
                r1.hooks ++ r2.hooks ++ rTail.hooks, callsHere ++ rTail.calls⟩
        else
          match executeFrom e w tail (i + 1) with
          | Except.error err => Except.error err
          | Except.ok rTail =>
            Except.ok ⟨alarmZone :: rTail.zones, rTail.w, rTail.hooks,
              HandlerCall.visitZone i :: rTail.calls⟩

/-- Source `IdeAlarm.execute`. -/
def execute (alarmZones : List IdeAlarmZone) (w : World) (e : Event) :
    Except String SysStep :=
  executeFrom e w alarmZones 0

/-- The zone record after a zone operation (`none` when it raised). -/
def zoneAfter : Except String ZoneStep → Option IdeAlarmZone
  | Except.ok r => some r.z
  | Except.error _ => none

/-- The zone's `_zoneStatus` after a zone operation. -/
def statusAfter (r : Except String ZoneStep) : Option (Option Nat) :=
  (zoneAfter r).map IdeAlarmZone.getZoneStatus

/-- The zone's `_armingMode` after a zone operation. -/
def modeAfter (r : Except String ZoneStep) : Option (Option Nat) :=
  (zoneAfter r).map IdeAlarmZone.getArmingMode

/-- An item's state after a zone operation (`NULL` when it raised). -/
def itemAfter : Except String ZoneStep → String → ItemVal
  | Except.ok r, n => r.w.items n
  | Except.error _, _ => ItemVal.NULL

/-- The `_zoneStatus` assignment trace of a zone operation. -/
def statusSeqAfter : Except String ZoneStep → List Nat
  | Except.ok r => r.statusSeq
  | Except.error _ => []

/-- The handler-call trace of `IdeAlarm.execute` (empty when it raised). -/
def callsAfter : Except String SysStep → List HandlerCall
  | Except.ok r => r.calls
  | Except.error _ => []

/-- Reading an item after a point update. -/
theorem items_post_update (w : World) (itemName m : String) (v : ItemVal) :
    (post_update_if_different w itemName v).items m =
      if m = itemName then v else w.items m := rfl

/-- Reading an item after a command. -/
theorem items_send_command (w : World) (itemName m : String) (v : ItemVal) :
    (send_command_if_different w itemName v).items m =
      if m = itemName then v else w.items m := rfl

/-- Reading an item after commanding a whole device list to one value. -/
theorem items_foldl_send (ds : List String) (w : World) (v : ItemVal) (m : String) :
    (ds.foldl (fun wAcc d => send_command_if_different wAcc d v) w).items m =
      if m ∈ ds then v else w.items m := by
  induction ds generalizing w with
  | nil => simp
  | cons d ds ih =>
    simp only [List.foldl_cons, ih, items_send_command, List.mem_cons]
    by_cases hm : m ∈ ds
    · simp [hm]
    · by_cases hd : m = d <;> simp [hm, hd]

/-- Commanding a device list leaves the custom-module flags alone. -/
theorem foldl_send_hasOnZoneStatusChange (ds : List String) (w : World) (v : ItemVal) :
    (ds.foldl (fun wAcc d => send_command_if_different wAcc d v) w).hasOnZoneStatusChange =
      w.hasOnZoneStatusChange := by
  induction ds generalizing w with
  | nil => rfl
  | cons d ds ih => simpa [send_command_if_different] using ih _

/-- Evaluation of `setZoneStatus` at `NORMAL`. -/
theorem setZoneStatus_NORMAL_eq (z : IdeAlarmZone) (w : World) (sc : Bool)
    (msg : Option String) :
    setZoneStatus z w ZONESTATUS_NORMAL sc msg =
      Except.ok ⟨{ z with zoneStatus := some ZONESTATUS_NORMAL },
        post_update_if_different
          (z.alertDevices.foldl (fun wAcc d => send_command_if_different wAcc d ItemVal.OFF)
            (post_update_if_different
              (post_update_if_different
                (post_update_if_different w (entryTimerItem z) ItemVal.OFF)
                (exitTimerItem z) ItemVal.OFF)
              (alertMaxTimerItem z) ItemVal.OFF))
          z.statusItem (ItemVal.num ZONESTATUS_NORMAL),
        (if w.hasOnZoneStatusChange then
          [Hook.onZoneStatusChange ZONESTATUS_NORMAL z.zoneStatus msg] else []),
        [ZONESTATUS_NORMAL]⟩ := by
  simp only [setZoneStatus]
  rw [if_neg (by decide :
    ¬(ZONESTATUS_NORMAL ∉ [ZONESTATUS_NORMAL, ZONESTATUS_ALERT, ZONESTATUS_ERROR,
      ZONESTATUS_TRIPPED, ZONESTATUS_ARMING]))]
  rw [if_pos (by decide : ZONESTATUS_NORMAL ∈ [ZONESTATUS_NORMAL])]
  simp only [post_update_if_different, foldl_send_hasOnZoneStatusChange]
  rfl

/-- Evaluation of `setZoneStatus` at `ERROR`. -/
theorem setZoneStatus_ERROR_eq (z : IdeAlarmZone) (w : World) (sc : Bool)
    (msg : Option String) :
    setZoneStatus z w ZONESTATUS_ERROR sc msg =
      Except.ok ⟨{ z with zoneStatus := some ZONESTATUS_ERROR },
        post_update_if_different w z.statusItem (ItemVal.num ZONESTATUS_ERROR),
        (if w.hasOnZoneStatusChange then
          [Hook.onZoneStatusChange ZONESTATUS_ERROR z.zoneStatus msg] else []),
        [ZONESTATUS_ERROR]⟩ := rfl

/-- Evaluation of `setZoneStatus` at `ARMING`. -/
theorem setZoneStatus_ARMING_eq (z : IdeAlarmZone) (w : World) (sc : Bool)
    (msg : Option String) :
    setZoneStatus z w ZONESTATUS_ARMING sc msg =
      Except.ok ⟨{ z with zoneStatus := some ZONESTATUS_ARMING },
        post_update_if_different w z.statusItem (ItemVal.num ZONESTATUS_ARMING),
        (if w.hasOnZoneStatusChange then
          [Hook.onZoneStatusChange ZONESTATUS_ARMING z.zoneStatus msg] else []),
        [ZONESTATUS_ARMING]⟩ := rfl

/-- Evaluation of `setZoneStatus` at `ALERT`. -/
theorem setZoneStatus_ALERT_eq (z : IdeAlarmZone) (w : World) (sc : Bool)
    (msg : Option String) :
    setZoneStatus z w ZONESTATUS_ALERT sc msg =
      Except.ok ⟨{ z with zoneStatus := some ZONESTATUS_ALERT },
        post_update_if_different w z.statusItem (ItemVal.num ZONESTATUS_ALERT),
        (if w.hasOnZoneStatusChange then
          [Hook.onZoneStatusChange ZONESTATUS_ALERT z.zoneStatus msg] else []),
        [ZONESTATUS_ALERT]⟩ := rfl

/-- The item map after `setZoneStatus(NORMAL)` as one nested conditional:
the status item holds the new status, the three canceled timers and the
alert devices hold OFF, everything else is untouched. -/
theorem itemAfter_setZoneStatus_NORMAL (z : IdeAlarmZone) (w : World) (sc : Bool)
    (msg : Option String) (m : String) :
    itemAfter (setZoneStatus z w ZONESTATUS_NORMAL sc msg) m =
      if m = z.statusItem then ItemVal.num ZONESTATUS_NORMAL
      else if m ∈ z.alertDevices then ItemVal.OFF
      else if m = alertMaxTimerItem z then ItemVal.OFF
      else if m = exitTimerItem z then ItemVal.OFF
      else if m = entryTimerItem z then ItemVal.OFF
      else w.items m := by
  rw [setZoneStatus_NORMAL_eq]
  show (post_update_if_different _ _ _).items m = _
  rw [items_post_update, items_foldl_send, items_post_update, items_post_update,
    items_post_update]

/-- A world with every item OFF, no group memberships and a `custom`
module defining none of the optional hooks. -/
def wOff : World :=
  { items := fun _ => ItemVal.OFF
    groups := fun _ => []
    lockDeviceGroupName := "G_Lock"
    hasOnArmingWithOpenSensors := false
    hasOnArmingModeChange := false
    hasOnZoneStatusChange := false
    hasOnNagTimer := false }

/-- The world `wOff` with the zone-1 nag timer currently ON. -/
def wNagOn : World :=
  { wOff with items := fun n => if n = "Z1_Nag_Timer" then ItemVal.ON else ItemVal.OFF }

/-- A typical zone-1 configuration used for concrete witnesses. -/
def baseZone : IdeAlarmZone :=
  { zoneNumber := 1
    alertDevices := ["Siren_Indoors"]
    name := "My Home"
    armAwayToggleSwitch := "Toggle_Z1_Armed_Away"
    armHomeToggleSwitch := "Toggle_Z1_Armed_Home"
    mainZone := true
    canArmWithTrippedSensors := true
    alarmTestMode := false
    sensors := []
    armingModeItem := "Z1_Arming_Mode"
    statusItem := "Z1_Status"
    armingMode := some ARMINGMODE_DISARMED
    zoneStatus := some ZONESTATUS_NORMAL
    openSections := 0 }

/-- C1, amended: after `setZoneStatus(NORMAL)` the status is NORMAL, the
entry, exit and alert-max timer devices read OFF, and every
alert-output device reads OFF (the status item must not itself be one of
those devices).  The nag timer is not among the canceled devices. -/
theorem setZoneStatus_NORMAL_cancels_three_timers
    (z : IdeAlarmZone) (w : World) (sc : Bool) (msg : Option String)
    (h1 : z.statusItem ≠ entryTimerItem z) (h2 : z.statusItem ≠ exitTimerItem z)
    (h3 : z.statusItem ≠ alertMaxTimerItem z) (h4 : z.statusItem ∉ z.alertDevices) :
    statusAfter (setZoneStatus z w ZONESTATUS_NORMAL sc msg) = some (some ZONESTATUS_NORMAL) ∧
    itemAfter (setZoneStatus z w ZONESTATUS_NORMAL sc msg) (entryTimerItem z) = ItemVal.OFF ∧
    itemAfter (setZoneStatus z w ZONESTATUS_NORMAL sc msg) (exitTimerItem z) = ItemVal.OFF ∧
    itemAfter (setZoneStatus z w ZONESTATUS_NORMAL sc msg) (alertMaxTimerItem z) = ItemVal.OFF ∧
    ∀ d ∈ z.alertDevices, itemAfter (setZoneStatus z w ZONESTATUS_NORMAL sc msg) d = ItemVal.OFF := by
  refine ⟨?_, ?_, ?_, ?_, ?_⟩
  · rw [setZoneStatus_NORMAL_eq]; rfl
  · simp [itemAfter_setZoneStatus_NORMAL, Ne.symm h1]
  · simp [itemAfter_setZoneStatus_NORMAL, Ne.symm h2]
  · simp [itemAfter_setZoneStatus_NORMAL, Ne.symm h3]
  · intro d hd
    have hds : d ≠ z.statusItem := fun he => h4 (he ▸ hd)
    simp [itemAfter_setZoneStatus_NORMAL, hds, hd]

/-- Witness for the amended C1 at a concrete zone and world. -/
theorem setZoneStatus_NORMAL_cancels_three_timers_witness :
    statusAfter (setZoneStatus baseZone wNagOn ZONESTATUS_NORMAL false none) =
      some (some ZONESTATUS_NORMAL) ∧
    itemAfter (setZoneStatus baseZone wNagOn ZONESTATUS_NORMAL false none)
      (entryTimerItem baseZone) = ItemVal.OFF ∧
    itemAfter (setZoneStatus baseZone wNagOn ZONESTATUS_NORMAL false none)
      (exitTimerItem baseZone) = ItemVal.OFF ∧
    itemAfter (setZoneStatus baseZone wNagOn ZONESTATUS_NORMAL false none)
      (alertMaxTimerItem baseZone) = ItemVal.OFF ∧
    ∀ d ∈ baseZone.alertDevices,
      itemAfter (setZoneStatus baseZone wNagOn ZONESTATUS_NORMAL false none) d = ItemVal.OFF :=
  setZoneStatus_NORMAL_cancels_three_timers baseZone wNagOn false none
    (by decide) (by decide) (by decide) (by decide)

/-- Counterexample to C1 as stated: with the zone-1 nag timer ON,
`setZoneStatus(NORMAL)` leaves it ON even though the status is NORMAL
afterwards, so not all *four* timer devices read OFF. -/
theorem setZoneStatus_NORMAL_leaves_nag_timer :
    statusAfter (setZoneStatus baseZone wNagOn ZONESTATUS_NORMAL false none) =
      some (some ZONESTATUS_NORMAL) ∧
    itemAfter (setZoneStatus baseZone wNagOn ZONESTATUS_NORMAL false none)
      (nagTimerItem baseZone) = ItemVal.ON ∧
    ItemVal.ON ≠ ItemVal.OFF := by
  refine ⟨by rw [setZoneStatus_NORMAL_eq]; rfl, ?_, by decide⟩
  rw [itemAfter_setZoneStatus_NORMAL]
  decide

/-- Evaluating `setArmingModeTail` in the ARMED_AWAY wait branch: status becomes
ARMING, the exit timer is switched ON, the arming mode is untouched. -/
theorem setArmingModeTail_AWAY_eq (z : IdeAlarmZone) (w : World) (old : Option Nat)
    (sc : Bool) (hooks0 : List Hook)
    (h1 : z.zoneStatus ≠ none) (h2 : z.zoneStatus ≠ some ZONESTATUS_ARMING) :
    setArmingModeTail z w ARMINGMODE_ARMED_AWAY old sc hooks0 =
      Except.ok ⟨{ z with zoneStatus := some ZONESTATUS_ARMING },
        post_update_if_different
          (post_update_if_different w z.statusItem (ItemVal.num ZONESTATUS_ARMING))
          (exitTimerItem z) ItemVal.ON,
        hooks0 ++ (if w.hasOnZoneStatusChange then
          [Hook.onZoneStatusChange ZONESTATUS_ARMING z.zoneStatus none] else []),
        [ZONESTATUS_ARMING]⟩ := by
  simp only [setArmingModeTail]
  rw [if_pos (show _ ∧ _ from ⟨by trivial, h1, h2⟩), setZoneStatus_ARMING_eq]
  rfl

/-- Evaluating `setArmingModeTail` in the install branch (guard fails): the mode is
installed, the item synced, and the status reset to NORMAL. -/
theorem zoneAfter_setArmingModeTail_install (z : IdeAlarmZone) (w : World) (m : Nat)
    (old : Option Nat) (sc : Bool) (hooks0 : List Hook)
    (h : ¬(m = ARMINGMODE_ARMED_AWAY ∧ z.zoneStatus ≠ none ∧
      z.zoneStatus ≠ some ZONESTATUS_ARMING)) :
    zoneAfter (setArmingModeTail z w m old sc hooks0) =
      some { z with armingMode := some m, zoneStatus := some ZONESTATUS_NORMAL } := by
  simp only [setArmingModeTail, IdeAlarmZone.getZoneStatus]
  rw [if_neg h, setZoneStatus_NORMAL_eq]
  rfl

/-- C2, amended: with a defined status other than ARMING and no
open-sensor refusal (no open sections, or arming with tripped sensors
allowed), requesting ARMED_AWAY leaves the arming mode untouched, sets
the status to ARMING and switches the exit timer ON; a later
`onExitTimer` call, which finds the status ARMING, is what installs
ARMED_AWAY (and resets the status to NORMAL). -/
theorem setArmingMode_AWAY_waits_for_exit_timer (z : IdeAlarmZone) (w : World) (sc : Bool)
    (h1 : z.zoneStatus ≠ none) (h2 : z.zoneStatus ≠ some ZONESTATUS_ARMING)
    (h3 : z.openSections = 0 ∨ z.canArmWithTrippedSensors = true) :
    (zoneAfter (setArmingMode z w ARMINGMODE_ARMED_AWAY sc) =
        some { z with zoneStatus := some ZONESTATUS_ARMING } ∧
      itemAfter (setArmingMode z w ARMINGMODE_ARMED_AWAY sc) (exitTimerItem z) = ItemVal.ON) ∧
    ∀ (z' : IdeAlarmZone) (w' : World), z'.zoneStatus = some ZONESTATUS_ARMING →
      zoneAfter (onExitTimer z' w') =
        some { z' with
          armingMode := some ARMINGMODE_ARMED_AWAY
          zoneStatus := some ZONESTATUS_NORMAL } := by
  constructor
  · have hstep : ∃ hooks0, setArmingMode z w ARMINGMODE_ARMED_AWAY sc =
        setArmingModeTail z w ARMINGMODE_ARMED_AWAY z.armingMode sc hooks0 := by
      simp only [setArmingMode]
      rw [if_neg (by decide : ¬(ARMINGMODE_ARMED_AWAY ∉ [ARMINGMODE_DISARMED,
        ARMINGMODE_ARMED_HOME, ARMINGMODE_ARMED_AWAY]))]
      rcases h3 with h3 | h3
      · rw [if_neg]
        · exact ⟨[], rfl⟩
        · rintro ⟨-, -, -, hgt⟩
          omega
      · by_cases hg : ARMINGMODE_ARMED_AWAY ∈ [ARMINGMODE_ARMED_AWAY,
            ARMINGMODE_ARMED_HOME] ∧ z.getZoneStatus ≠ some ZONESTATUS_ARMING ∧
            z.getZoneStatus ≠ none ∧ z.openSections > 0
        · rw [if_pos hg, if_neg (by simp [h3])]
          exact ⟨_, rfl⟩
        · rw [if_neg hg]
          exact ⟨[], rfl⟩
    obtain ⟨hooks0, heq⟩ := hstep
    rw [heq, setArmingModeTail_AWAY_eq z w z.armingMode sc hooks0 h1 h2]
    refine ⟨rfl, ?_⟩
    show (post_update_if_different _ _ _).items _ = _
    rw [items_post_update, if_pos rfl]
  · intro z' w' hst
    show zoneAfter (setArmingMode z' w' ARMINGMODE_ARMED_AWAY false) = _
    simp only [setArmingMode]
    rw [if_neg (by decide : ¬(ARMINGMODE_ARMED_AWAY ∉ [ARMINGMODE_DISARMED,
      ARMINGMODE_ARMED_HOME, ARMINGMODE_ARMED_AWAY]))]
    rw [if_neg (by rintro ⟨-, hne, -⟩; exact hne (by simp [IdeAlarmZone.getZoneStatus, hst]))]
    exact zoneAfter_setArmingModeTail_install z' w' ARMINGMODE_ARMED_AWAY z'.armingMode
      false [] (by rintro ⟨-, -, hne⟩; exact hne hst)

/-- Witness for the amended C2 at a concrete zone and world. -/
theorem setArmingMode_AWAY_waits_for_exit_timer_witness :
    (zoneAfter (setArmingMode baseZone wOff ARMINGMODE_ARMED_AWAY false) =
        some { baseZone with zoneStatus := some ZONESTATUS_ARMING } ∧
      itemAfter (setArmingMode baseZone wOff ARMINGMODE_ARMED_AWAY false)
        (exitTimerItem baseZone) = ItemVal.ON) ∧
    ∀ (z' : IdeAlarmZone) (w' : World), z'.zoneStatus = some ZONESTATUS_ARMING →
      zoneAfter (onExitTimer z' w') =
        some { z' with
          armingMode := some ARMINGMODE_ARMED_AWAY
          zoneStatus := some ZONESTATUS_NORMAL } :=
  setArmingMode_AWAY_waits_for_exit_timer baseZone wOff false
    (by decide) (by decide) (Or.inl (by decide))

/-- The zone `baseZone` configured to refuse arming with tripped sensors, with
one open section. -/
def trippedZone : IdeAlarmZone :=
  { baseZone with canArmWithTrippedSensors := false, openSections := 1 }

/-- Counterexample to C2 as stated: with status defined (NORMAL) and not
ARMING but an open sensor and `canArmWithTrippedSensors = false`,
requesting ARMED_AWAY does not set the status to ARMING (it ends at
NORMAL after the ERROR flash) and does not turn the exit timer ON. -/
theorem setArmingMode_AWAY_open_sensor_refusal :
    statusAfter (setArmingMode trippedZone wOff ARMINGMODE_ARMED_AWAY false) =
      some (some ZONESTATUS_NORMAL) ∧
    some (some ZONESTATUS_NORMAL) ≠ some (some ZONESTATUS_ARMING) ∧
    itemAfter (setArmingMode trippedZone wOff ARMINGMODE_ARMED_AWAY false)
      (exitTimerItem trippedZone) = ItemVal.OFF ∧
    ItemVal.OFF ≠ ItemVal.ON := by decide

/-- C3: a zone that may not arm with tripped sensors, with a defined
status other than ARMING and at least one open section, refuses
ARMED_HOME / ARMED_AWAY: the arming mode is unchanged, the status is
assigned ERROR and then NORMAL, and the call ends with status NORMAL. -/
theorem setArmingMode_tripped_sensor_refusal (z : IdeAlarmZone) (w : World) (m : Nat)
    (sc : Bool) (hCan : z.canArmWithTrippedSensors = false)
    (h1 : z.zoneStatus ≠ none) (h2 : z.zoneStatus ≠ some ZONESTATUS_ARMING)
    (h4 : 0 < z.openSections)
    (h5 : m = ARMINGMODE_ARMED_HOME ∨ m = ARMINGMODE_ARMED_AWAY) :
    zoneAfter (setArmingMode z w m sc) =
      some { z with zoneStatus := some ZONESTATUS_NORMAL } ∧
    modeAfter (setArmingMode z w m sc) = some z.armingMode ∧
    statusSeqAfter (setArmingMode z w m sc) = [ZONESTATUS_ERROR, ZONESTATUS_NORMAL] := by
  have hvalid : ¬(m ∉ [ARMINGMODE_DISARMED, ARMINGMODE_ARMED_HOME,
      ARMINGMODE_ARMED_AWAY]) := by
    rcases h5 with h | h <;> subst h <;> decide
  have hmem : m ∈ [ARMINGMODE_ARMED_AWAY, ARMINGMODE_ARMED_HOME] := by
    rcases h5 with h | h <;> subst h <;> decide
  simp only [setArmingMode, IdeAlarmZone.getZoneStatus]
  rw [if_neg hvalid, if_pos ⟨hmem, h2, h1, h4⟩, if_pos (by simp [hCan]),
    setZoneStatus_ERROR_eq]
  simp only [setZoneStatus_NORMAL_eq]
  exact ⟨rfl, rfl, rfl⟩

/-- Witness for C3 at a concrete zone, world and requested mode. -/
theorem setArmingMode_tripped_sensor_refusal_witness :
    zoneAfter (setArmingMode trippedZone wOff ARMINGMODE_ARMED_HOME false) =
      some { trippedZone with zoneStatus := some ZONESTATUS_NORMAL } ∧
    modeAfter (setArmingMode trippedZone wOff ARMINGMODE_ARMED_HOME false) =
      some trippedZone.armingMode ∧
    statusSeqAfter (setArmingMode trippedZone wOff ARMINGMODE_ARMED_HOME false) =
      [ZONESTATUS_ERROR, ZONESTATUS_NORMAL] :=
  setArmingMode_tripped_sensor_refusal trippedZone wOff ARMINGMODE_ARMED_HOME false
    (by decide) (by decide) (by decide) (by decide) (Or.inl rfl)

/-- C6: `onEntryTimer` with any status other than TRIPPED raises the
invariant error.  In this embedding an `Except.error` result carries no
new state, matching the Python code, which raises before mutating
anything: status, mode and alert devices stay as they were. -/
theorem onEntryTimer_not_tripped_raises (z : IdeAlarmZone) (w : World)
    (h : z.zoneStatus ≠ some ZONESTATUS_TRIPPED) :
    onEntryTimer z w = Except.error "Entry Timer timed out but zone status is not tripped" := by
  simp only [onEntryTimer, IdeAlarmZone.getZoneStatus]
  rw [if_pos (by simp [h])]

/-- Witness for C6 at a concrete zone (status NORMAL) and world. -/
theorem onEntryTimer_not_tripped_raises_witness :
    onEntryTimer baseZone wOff =
      Except.error "Entry Timer timed out but zone status is not tripped" :=
  onEntryTimer_not_tripped_raises baseZone wOff (by decide)

/-- C7: `setArmingMode` with a value outside DISARMED / ARMED_HOME /
ARMED_AWAY raises the configuration error.  The check precedes every
mutation, so mode and status are untouched (`Except.error` carries no
state in this embedding). -/
theorem setArmingMode_invalid_mode_raises (z : IdeAlarmZone) (w : World) (m : Nat)
    (sc : Bool) (h0 : m ≠ ARMINGMODE_DISARMED) (h1 : m ≠ ARMINGMODE_ARMED_HOME)
    (h2 : m ≠ ARMINGMODE_ARMED_AWAY) :
    setArmingMode z w m sc =
      Except.error ("Trying to set an invalid arming mode: " ++ toString m) := by
  simp only [setArmingMode]
  rw [if_pos (by simp [h0, h1, h2])]

/-- Witness for C7 at the concrete invalid mode 7. -/
theorem setArmingMode_invalid_mode_raises_witness :
    setArmingMode baseZone wOff 7 false =
      Except.error ("Trying to set an invalid arming mode: " ++ toString 7) :=
  setArmingMode_invalid_mode_raises baseZone wOff 7 false
    (by decide) (by decide) (by decide)

/-- C10: `onAlertMaxTimer` switches every alert device OFF and changes
nothing else: the zone record (status, mode, open-sections count) is
untouched, no custom hook runs, no status assignment happens, and every
item that is not an alert device keeps its previous state — in
particular all four zone timer items, which are distinct from the alert
devices in any sane configuration. -/
theorem onAlertMaxTimer_frame (z : IdeAlarmZone) (w : World) :
    (onAlertMaxTimer z w).z = z ∧
    (onAlertMaxTimer z w).hooks = [] ∧
    (onAlertMaxTimer z w).statusSeq = [] ∧
    (∀ d ∈ z.alertDevices, (onAlertMaxTimer z w).w.items d = ItemVal.OFF) ∧
    ∀ n, n ∉ z.alertDevices → (onAlertMaxTimer z w).w.items n = w.items n := by
  refine ⟨rfl, rfl, rfl, ?_, ?_⟩
  · intro d hd
    simp only [onAlertMaxTimer]
    rw [items_foldl_send, if_pos hd]
  · intro n hn
    simp only [onAlertMaxTimer]
    rw [items_foldl_send, if_neg hn]

/-- Witness for C10 at a concrete zone, world, device and other item. -/
theorem onAlertMaxTimer_frame_witness :
    (onAlertMaxTimer baseZone wOff).z = baseZone ∧
    (onAlertMaxTimer baseZone wOff).hooks = [] ∧
    (onAlertMaxTimer baseZone wOff).w.items "Siren_Indoors" = ItemVal.OFF ∧
    (onAlertMaxTimer baseZone wOff).w.items (entryTimerItem baseZone) =
      wOff.items (entryTimerItem baseZone) := by
  refine ⟨(onAlertMaxTimer_frame baseZone wOff).1,
    (onAlertMaxTimer_frame baseZone wOff).2.1, ?_, ?_⟩
  · exact (onAlertMaxTimer_frame baseZone wOff).2.2.2.1 "Siren_Indoors" (by decide)
  · exact (onAlertMaxTimer_frame baseZone wOff).2.2.2.2 (entryTimerItem baseZone) (by decide)

/-- C9: while armed (ARMED_HOME or ARMED_AWAY), `getNagSensors` returns
the empty list, cancels the nag timer (writes OFF), touches nothing
else, leaves the zone untouched and never calls the `onNagTimer` hook,
whatever `timerTimedOut` is. -/
theorem getNagSensors_while_armed (z : IdeAlarmZone) (w : World) (t : Bool)
    (h : z.armingMode = some ARMINGMODE_ARMED_HOME ∨
      z.armingMode = some ARMINGMODE_ARMED_AWAY) :
    (getNagSensors z w t).2 = [] ∧
    (getNagSensors z w t).1.z = z ∧
    (getNagSensors z w t).1.w.items (nagTimerItem z) = ItemVal.OFF ∧
    (∀ n, n ≠ nagTimerItem z → (getNagSensors z w t).1.w.items n = w.items n) ∧
    (getNagSensors z w t).1.hooks = [] := by
  have hfilter : (z.sensors.filter fun sn =>
      sn.isEnabled && sn.isActive w && sn.nag &&
        decide (z.getArmingMode = some ARMINGMODE_DISARMED)) = [] := by
    apply List.filter_eq_nil_iff.mpr
    intro sn _
    rcases h with h | h <;>
      simp [IdeAlarmZone.getArmingMode, h, ARMINGMODE_DISARMED,
        ARMINGMODE_ARMED_HOME, ARMINGMODE_ARMED_AWAY]
  simp only [getNagSensors, hfilter, List.length_nil, if_pos]
  refine ⟨by trivial, by trivial, ?_, ?_, by trivial⟩
  · rw [items_post_update, if_pos rfl]
  · intro n hn
    rw [items_post_update, if_neg hn]

/-- The zone `baseZone` armed home. -/
def homeZone : IdeAlarmZone :=
  { baseZone with armingMode := some ARMINGMODE_ARMED_HOME }

/-- Witness for C9 at a concrete armed zone. -/
theorem getNagSensors_while_armed_witness :
    (getNagSensors homeZone wOff true).2 = [] ∧
    (getNagSensors homeZone wOff true).1.z = homeZone ∧
    (getNagSensors homeZone wOff true).1.w.items (nagTimerItem homeZone) = ItemVal.OFF ∧
    (∀ n, n ≠ nagTimerItem homeZone →
      (getNagSensors homeZone wOff true).1.w.items n = wOff.items n) ∧
    (getNagSensors homeZone wOff true).1.hooks = [] :=
  getNagSensors_while_armed homeZone wOff true (Or.inl (by decide))

/-- C8: `countOpenSections` counts enabled, active sensors but skips
members of group `G_Motion` except under ARMED_AWAY; it stores the
count in `openSections` and posts it to the open-sections item.  For a
zone whose enabled-and-active sensors are exactly one motion-group
sensor, the count is 0 under ARMED_HOME and 1 under ARMED_AWAY. -/
theorem countOpenSections_motion_only_under_AWAY (z : IdeAlarmZone) (w : World)
    (hmot : ∀ sn ∈ z.sensors, sn.isEnabled = true → sn.isActive w = true →
      "G_Motion" ∈ w.groups sn.name)
    (hone : z.sensors.countP (fun sn => sn.isEnabled && sn.isActive w) = 1) :
    (countOpenSections z w).1.z = { z with openSections := (countOpenSections z w).2 } ∧
    (countOpenSections z w).1.w.items (openSectionsItem z) =
      ItemVal.num (countOpenSections z w).2 ∧
    (z.armingMode = some ARMINGMODE_ARMED_HOME → (countOpenSections z w).2 = 0) ∧
    (z.armingMode = some ARMINGMODE_ARMED_AWAY → (countOpenSections z w).2 = 1) := by
  refine ⟨rfl, ?_, ?_, ?_⟩
  · show (post_update_if_different _ _ _).items _ = _
    rw [items_post_update, if_pos (by rfl)]
    rfl
  · intro hm
    show List.countP _ _ = 0
    apply List.countP_eq_zero.mpr
    intro sn hsn
    by_cases hen : sn.isEnabled = true
    · by_cases hact : sn.isActive w = true
      · have hg := hmot sn hsn hen hact
        simp [hen, hact, hg, hm, IdeAlarmZone.getArmingMode,
          ARMINGMODE_ARMED_HOME, ARMINGMODE_ARMED_AWAY]
      · simp [Bool.not_eq_true] at hact
        simp [hact]
    · simp [Bool.not_eq_true] at hen
      simp [hen]
  · intro hm
    show List.countP _ _ = 1
    rw [← hone]
    apply List.countP_congr
    intro sn _
    simp [hm, IdeAlarmZone.getArmingMode, ARMINGMODE_ARMED_AWAY]

/-- A single motion-group sensor. -/
def motionSensor : IdeAlarmSensor :=
  { name := "Kitchen_Motion"
    sensorClass := "A"
    nag := false
    nagTimeoutMins := 0
    armWarn := true
    enabled := true }

/-- A world in which the motion sensor item is ON and belongs to the
motion group. -/
def wMotion : World :=
  { wOff with
    items := fun n => if n = "Kitchen_Motion" then ItemVal.ON else ItemVal.OFF
    groups := fun n => if n = "Kitchen_Motion" then ["G_Motion"] else [] }

/-- The zone `baseZone` armed away with the single motion sensor. -/
def motionZoneAway : IdeAlarmZone :=
  { baseZone with
    sensors := [motionSensor]
    armingMode := some ARMINGMODE_ARMED_AWAY }

/-- Witness for C8 at the concrete one-motion-sensor zone. -/
theorem countOpenSections_motion_only_under_AWAY_witness :
    (countOpenSections motionZoneAway wMotion).1.z =
      { motionZoneAway with openSections := (countOpenSections motionZoneAway wMotion).2 } ∧
    (countOpenSections motionZoneAway wMotion).1.w.items (openSectionsItem motionZoneAway) =
      ItemVal.num (countOpenSections motionZoneAway wMotion).2 ∧
    (motionZoneAway.armingMode = some ARMINGMODE_ARMED_HOME →
      (countOpenSections motionZoneAway wMotion).2 = 0) ∧
    (motionZoneAway.armingMode = some ARMINGMODE_ARMED_AWAY →
      (countOpenSections motionZoneAway wMotion).2 = 1) :=
  countOpenSections_motion_only_under_AWAY motionZoneAway wMotion
    (by decide) (by decide)

/-- Applying `pyGet` at a nonnegative index is plain list lookup. -/
theorem pyGet_ofNat {α : Type} (xs : List α) (k : Nat) :
    pyGet xs (k : Int) = xs.get? k := by
  simp [pyGet]

/-- Applying `pyGet` at `-1` on a nonempty list looks up the last position. -/
theorem pyGet_neg_one {α : Type} (xs : List α) (h : xs ≠ []) :
    pyGet xs (-1) = xs.get? (xs.length - 1) := by
  have hlen : 1 ≤ xs.length := List.length_pos.mpr h
  simp [pyGet, hlen]

/-- Counting positions of `range` whose lookup satisfies a predicate is
counting the list's elements satisfying it. -/
theorem countP_range_lookup {α β : Type} [DecidableEq β] (q : α → β) (v : β)
    (l : List α) :
    (List.range l.length).countP (fun j => decide ((l.get? j).map q = some v)) =
      l.countP (fun z => decide (q z = v)) := by
  induction l with
  | nil => rfl
  | cons x t ih =>
    rw [List.length_cons, List.range_succ_eq_map, List.countP_cons, List.countP_map]
    have hcomp : ((fun j => decide (((x :: t).get? j).map q = some v)) ∘ Nat.succ) =
        fun j => decide ((t.get? j).map q = some v) := by
      funext j
      simp [Function.comp, List.get?_cons_succ]
    have hf0 : decide ((((x :: t).get? 0).map q) = some v) = decide (q x = v) := by
      simp
    rw [hcomp, ih, hf0, List.countP_cons]

/-- C4: `getAlertingZonesCount` equals the number of zones whose status
is ALERT, for every zone list.  The loop queries `getZoneStatus(i)`,
which looks at index `i - 1`; with Python indexing, `i = 0` reaches the
last zone, so the queried positions are a rotation of the zone list and
the count is nevertheless exact. -/
theorem getAlertingZonesCount_counts_ALERT_zones (alarmZones : List IdeAlarmZone) :
    getAlertingZonesCount alarmZones =
      alarmZones.countP (fun z => decide (z.getZoneStatus = some ZONESTATUS_ALERT)) := by
  cases alarmZones with
  | nil => rfl
  | cons z0 t =>
    show (List.range (z0 :: t).length).countP
        (fun i => decide (getZoneStatusNum (z0 :: t) i = some (some ZONESTATUS_ALERT))) = _
    rw [List.length_cons, List.range_succ_eq_map, List.countP_cons, List.countP_map]
    have hcomp : ((fun i => decide (getZoneStatusNum (z0 :: t) i =
        some (some ZONESTATUS_ALERT))) ∘ Nat.succ) =
        fun j => decide (((z0 :: t).get? j).map IdeAlarmZone.getZoneStatus =
          some (some ZONESTATUS_ALERT)) := by
      funext j
      have hidx : ((j + 1 : Nat) : Int) - 1 = (j : Int) := by push_cast; ring
      simp only [Function.comp, getZoneStatusNum, hidx, pyGet_ofNat]
    have hf0 : decide (getZoneStatusNum (z0 :: t) 0 = some (some ZONESTATUS_ALERT)) =
        decide (((z0 :: t).get? t.length).map IdeAlarmZone.getZoneStatus =
          some (some ZONESTATUS_ALERT)) := by
      have hidx : ((0 : Nat) : Int) - 1 = -1 := by decide
      simp only [getZoneStatusNum, hidx,
        pyGet_neg_one (z0 :: t) (List.cons_ne_nil z0 t), List.length_cons,
        Nat.add_sub_cancel]
    rw [hcomp, hf0]
    have hsplit : (List.range (t.length + 1)).countP
        (fun j => decide (((z0 :: t).get? j).map IdeAlarmZone.getZoneStatus =
          some (some ZONESTATUS_ALERT))) =
        (List.range t.length).countP
          (fun j => decide (((z0 :: t).get? j).map IdeAlarmZone.getZoneStatus =
            some (some ZONESTATUS_ALERT))) +
        if decide (((z0 :: t).get? t.length).map IdeAlarmZone.getZoneStatus =
          some (some ZONESTATUS_ALERT)) then 1 else 0 := by
      rw [List.range_succ, List.countP_append, List.countP_cons]
      simp
    have hall := countP_range_lookup IdeAlarmZone.getZoneStatus
      (some ZONESTATUS_ALERT) (z0 :: t)
    rw [List.length_cons, hsplit] at hall
    omega

/-- Whether `execute`'s scan stops at this zone: the event names the
zone's arm toggle or one of its four timer items (the outer-loop
`break` conditions). -/
def zoneDirectMatch (e : Event) (az : IdeAlarmZone) (i : Nat) : Bool :=
  decide (e.itemName = az.armAwayToggleSwitch ∨ e.itemName = az.armHomeToggleSwitch) ||
  decide (e.itemName = "Z" ++ toString (i + 1) ++ "_Entry_Timer") ||
  decide (e.itemName = "Z" ++ toString (i + 1) ++ "_Exit_Timer") ||
  decide (e.itemName = "Z" ++ toString (i + 1) ++ "_Nag_Timer") ||
  decide (e.itemName = "Z" ++ toString (i + 1) ++ "_Alert_Max_Timer")

/-- How many zones the scan examines: everything up to and including the
first direct (toggle/timer) match — sensor matches do not stop it. -/
def scanLen (e : Event) : Nat → List IdeAlarmZone → Nat
  | _, [] => 0
  | i, az :: tail => if zoneDirectMatch e az i then 1 else 1 + scanLen e (i + 1) tail

/-- The zone indices examined, read off the call trace. -/
def visits (cs : List HandlerCall) : List Nat :=
  cs.filterMap fun c =>
    match c with
    | HandlerCall.visitZone k => some k
    | _ => none

/-- The zone index a trace entry belongs to. -/
def HandlerCall.zoneIdx : HandlerCall → Nat
  | HandlerCall.visitZone k => k
  | HandlerCall.onToggleSwitch k _ => k
  | HandlerCall.onEntryTimer k => k
  | HandlerCall.onExitTimer k => k
  | HandlerCall.nagTimerTimedOut k => k
  | HandlerCall.onAlertMaxTimer k => k
  | HandlerCall.onSensorChange k _ => k
  | HandlerCall.getNagSensors k => k
  | HandlerCall.countOpenSections k => k

/-- C5, amended: `execute` examines zones in order and stops only at the
first zone whose arm-toggle or timer device matches the event; a
sensor-name match handles the sensor in that zone but does not stop the
outer scan.  The examined zone indices are exactly
`i, i+1, …, i+scanLen-1`, and every handler invocation in the trace
belongs to one of the examined zones. -/
theorem executeFrom_scans_until_direct_match (e : Event) (rest : List IdeAlarmZone) :
    ∀ (w : World) (i : Nat) (r : SysStep), executeFrom e w rest i = Except.ok r →
      visits r.calls = List.range' i (scanLen e i rest) ∧
      ∀ c ∈ r.calls, HandlerCall.zoneIdx c ∈ List.range' i (scanLen e i rest) := by
  induction rest with
  | nil =>
    intro w i r h
    simp only [executeFrom] at h
    cases h
    simp [visits, scanLen]
  | cons az tail ih =>
    intro w i r h
    simp only [executeFrom] at h
    split at h
    · -- arm toggle match
      next htog =>
      have hdir : zoneDirectMatch e az i = true := by
        simp [zoneDirectMatch, htog]
      split at h
      · cases h
      · next r0 heq =>
        cases h
        simp [visits, scanLen, hdir, List.range'_one, HandlerCall.zoneIdx]
    · next hntog =>
      split at h
      · -- entry timer match
        next hentry =>
        have hdir : zoneDirectMatch e az i = true := by
          simp [zoneDirectMatch, hentry]
        split at h
        · cases h
        · next r0 heq =>
          cases h
          simp [visits, scanLen, hdir, List.range'_one, HandlerCall.zoneIdx]
      · next hnentry =>
        split at h
        · -- exit timer match
          next hexit =>
          have hdir : zoneDirectMatch e az i = true := by
            simp [zoneDirectMatch, hexit]
          split at h
          · cases h
          · next r0 heq =>
            cases h
            simp [visits, scanLen, hdir, List.range'_one, HandlerCall.zoneIdx]
        · next hnexit =>
          split at h
          · -- nag timer match
            next hnag =>
            have hdir : zoneDirectMatch e az i = true := by
              simp [zoneDirectMatch, hnag]
            cases h
            simp [visits, scanLen, hdir, List.range'_one, HandlerCall.zoneIdx]
          · next hnnag =>
            split at h
            · -- alert max timer match
              next hmax =>
              have hdir : zoneDirectMatch e az i = true := by
                simp [zoneDirectMatch, hmax]
              cases h
              simp [visits, scanLen, hdir, List.range'_one, HandlerCall.zoneIdx]
            · next hnmax =>
              -- no direct match: the scan continues past this zone
              have hdir : zoneDirectMatch e az i = false := by
                simp [zoneDirectMatch, hntog, hnentry, hnexit, hnnag, hnmax]
              have hlen : scanLen e i (az :: tail) = 1 + scanLen e (i + 1) tail := by
                simp [scanLen, hdir]
              have hrange : List.range' i (scanLen e i (az :: tail)) =
                  i :: List.range' (i + 1) (scanLen e (i + 1) tail) := by
                rw [hlen, Nat.add_comm, List.range'_succ]
              split at h
              · -- no sensor of this zone matches
                split at h
                · cases h
                · next rTail heq =>
                  cases h
                  obtain ⟨ihv, ihc⟩ := ih _ _ _ heq
                  simp only [visits] at ihv
                  constructor
                  · simp only [visits, List.filterMap_cons]
                    simp [hrange, ihv]
                  · intro c hc
                    rw [hrange]
                    rcases List.mem_cons.mp hc with hc | hc
                    · subst hc; simp [HandlerCall.zoneIdx]
                    · exact List.mem_cons_of_mem _ (ihc c hc)
              · -- first matching sensor found
                next sensor hfind =>
                split at h
                · -- sensor enabled
                  split at h
                  · cases h
                  · next r1 hstep =>
                    split at h
                    · cases h
                    · next rTail heq =>
                      cases h
                      obtain ⟨ihv, ihc⟩ := ih _ _ _ heq
                      simp only [visits] at ihv
                      constructor
                      · by_cases hact : isActiveItem w e.itemName = true <;>
                          · simp only [visits, List.filterMap_cons, List.filterMap_append]
                            simp [hrange, ihv, hact]
                      · intro c hc
                        rw [hrange]
                        rcases List.mem_append.mp hc with hc | hc
                        · rcases List.mem_cons.mp hc with rfl | hc
                          · simp [HandlerCall.zoneIdx]
                          rcases List.mem_append.mp hc with hc | hc
                          · by_cases hact : isActiveItem w e.itemName = true
                            · rw [if_pos hact] at hc
                              rcases List.mem_singleton.mp hc with rfl
                              simp [HandlerCall.zoneIdx]
                            · rw [if_neg hact] at hc
                              exact absurd hc (List.not_mem_nil c)
                          · rcases List.mem_cons.mp hc with rfl | hc
                            · simp [HandlerCall.zoneIdx]
                            rcases List.mem_singleton.mp hc with rfl
                            simp [HandlerCall.zoneIdx]
                        · exact List.mem_cons_of_mem _ (ihc c hc)
                · -- sensor found but disabled
                  split at h
                  · cases h
                  · next rTail heq =>
                    cases h
                    obtain ⟨ihv, ihc⟩ := ih _ _ _ heq
                    simp only [visits] at ihv
                    constructor
                    · simp only [visits, List.filterMap_cons]
                      simp [hrange, ihv]
                    · intro c hc
                      rw [hrange]
                      rcases List.mem_cons.mp hc with hc | hc
                      · subst hc; simp [HandlerCall.zoneIdx]
                      · exact List.mem_cons_of_mem _ (ihc c hc)

/-- Witness for the amended C5: a scan over one zone that nothing
matches examines exactly zone 0 and invokes no handler. -/
theorem executeFrom_scans_until_direct_match_witness :
    visits (SysStep.mk [baseZone] wOff [] [HandlerCall.visitZone 0]).calls =
      List.range' 0 (scanLen ⟨"Nothing_Here"⟩ 0 [baseZone]) ∧
    ∀ c ∈ (SysStep.mk [baseZone] wOff [] [HandlerCall.visitZone 0]).calls,
      HandlerCall.zoneIdx c ∈ List.range' 0 (scanLen ⟨"Nothing_Here"⟩ 0 [baseZone]) :=
  executeFrom_scans_until_direct_match ⟨"Nothing_Here"⟩ [baseZone] wOff 0
    (SysStep.mk [baseZone] wOff [] [HandlerCall.visitZone 0]) rfl

/-- A sensor configured in two zones at once. -/
def sharedSensor : IdeAlarmSensor :=
  { name := "SharedSensor"
    sensorClass := "A"
    nag := false
    nagTimeoutMins := 0
    armWarn := true
    enabled := true }

/-- A world in which the shared sensor item is ON. -/
def wShared : World :=
  { wOff with items := fun n => if n = "SharedSensor" then ItemVal.ON else ItemVal.OFF }

/-- Zone 1 with the shared sensor. -/
def zoneS1 : IdeAlarmZone :=
  { baseZone with sensors := [sharedSensor] }

/-- Zone 2 with the shared sensor. -/
def zoneS2 : IdeAlarmZone :=
  { baseZone with
    zoneNumber := 2
    armAwayToggleSwitch := "Toggle_Z2_Armed_Away"
    armHomeToggleSwitch := "Toggle_Z2_Armed_Home"
    armingModeItem := "Z2_Arming_Mode"
    statusItem := "Z2_Status"
    sensors := [sharedSensor] }

/-- Counterexample to C5 as stated: when the event's item is a sensor of
zone 0, the scan does **not** stop there — zone 1 is examined as well
and its sensor handlers are invoked too (the inner `break` leaves only
the sensor loop, not the zone loop). -/
theorem execute_sensor_match_does_not_stop :
    HandlerCall.onSensorChange 0 "SharedSensor" ∈
      callsAfter (execute [zoneS1, zoneS2] wShared ⟨"SharedSensor"⟩) ∧
    HandlerCall.visitZone 1 ∈
      callsAfter (execute [zoneS1, zoneS2] wShared ⟨"SharedSensor"⟩) ∧
    HandlerCall.onSensorChange 1 "SharedSensor" ∈
      callsAfter (execute [zoneS1, zoneS2] wShared ⟨"SharedSensor"⟩) := by decide
